import Mathlib

/-!
Shallow embedding of the monitoring decorator in `src/decorator.py`
(repository `common-decorator`), together with proofs of the testable
properties stated in its specification.

Modelling conventions:
- Python values are `Value` (ints as `Int`, floats as `Rat`, dicts and
  pydantic model instances as association lists).
- The pydantic-based schema validator (an external collaborator in the
  spec) is modelled by `coerceCheck`, mirroring exactly the accept /
  coerce-from-dict / coerce-from-dunder-dict logic that the decorator
  performs inline: a value is accepted when it is an instance of the
  declared model; otherwise the model constructor is applied to the
  value viewed as field/value pairs, which either passes, raises a
  `ValidationError` (missing or mistyped field), or raises another
  exception (a plain value has no field dictionary).
- The resource sampler and the clock are modelled by an `Env` record
  holding the values the samples return during one invocation.
- The structured logger is modelled by the list of records the wrapper
  emits; emission itself is an external sink.
- `wrapper` is the decorated call: it takes the configuration of
  `monitor_function`, the signature and type hints of the wrapped
  callable, the callable itself, the call arguments and the `Env`,
  and returns every observable of one invocation.
-/

set_option autoImplicit false

namespace CommonDecorator

/-- Primitive field types that may appear in a pydantic model declaration. -/
inductive PrimType where
  | pInt
  | pStr
  | pFloat
  | pBool
  deriving DecidableEq, Repr

/-- A pydantic `BaseModel` subclass: a named record shape with typed fields. -/
structure ModelType where
  name : String
  fields : List (String × PrimType)
  deriving DecidableEq, Repr

/-- Python runtime values, as far as the decorator observes them. -/
inductive Value where
  | vNone
  | vBool (b : Bool)
  | vInt (n : Int)
  | vFloat (q : Rat)
  | vStr (s : String)
  | vList (elems : List Value)
  | vDict (entries : List (String × Value))
  | vModel (typeName : String) (fields : List (String × Value))

/-- Declared type of a parameter (or of the return value): either a
pydantic model subclass, which the decorator validates, or any other
annotation, which it skips. -/
inductive Hint where
  | model (M : ModelType)
  | plain
  deriving Repr

/-- The result of `get_type_hints(func)`: hint per annotated name,
possibly including the key `"return"`. -/
abbrev TypeHints := List (String × Hint)

/-- One declared parameter of the wrapped callable, with its default if any. -/
structure Param where
  name : String
  default : Option Value

/-- Outcome of calling the underlying Python function: a return value, or
an exception with its message. -/
inductive ExecOutcome where
  | ok (v : Value)
  | exn (msg : String)

/-- The wrapped callable: positional arguments, keyword arguments, outcome. -/
abbrev PyFunc := List Value → List (String × Value) → ExecOutcome

/-- Configuration of `monitor_function` (defaults as in the source). -/
structure MonitorOptions where
  validate_input : Bool := true
  validate_output : Bool := true
  log_execution : Bool := true
  log_level : String := "INFO"
  return_raw_result : Bool := false

/-- The environment of one invocation: what the clock and the resource
sampler return at the start and end samples, plus the formatted
traceback and timestamp strings, which are opaque to the wrapper. -/
structure Env where
  startTime : Rat
  endTime : Rat
  memBefore : Int
  memAfter : Int
  cpuBefore : Rat
  cpuAfter : Rat
  timestamp : String
  tb : String

/-- Memory figures of the envelope. -/
structure MemUsage where
  before : Int
  after : Int
  peak : Int
  delta : Int
  deriving DecidableEq, Repr

/-- Standard response format for decorated functions (`ExecutionResult`
in the source). `errors` is `none` when the Python field is `None`. -/
structure ExecutionResult where
  result : Value
  status : String
  errors : Option (List String)
  execution_time : Rat
  memory_usage : MemUsage
  cpu_usage : Rat
  timestamp : String
  function_name : String

/-- Severity levels used by the structured logger. -/
inductive LogLevel where
  | debug
  | info
  | error
  deriving DecidableEq, Repr

/-- One structured record handed to the logger. -/
structure LogRecord where
  level : LogLevel
  message : String
  data : Value

/-- Everything observable about one invocation of the wrapped function. -/
structure WrapperTrace where
  envelope : ExecutionResult
  logs : List LogRecord
  invoked : Bool
  output : Value

/-- Association-list lookup by key (Python dict access by string key). -/
def lookupStr {α : Type} : List (String × α) → String → Option α
  | [], _ => none
  | (k, v) :: rest, key => if k = key then some v else lookupStr rest key

/-- Remove the entry of a key from an association list. -/
def removeKey {α : Type} : List (String × α) → String → List (String × α)
  | [], _ => []
  | (k, v) :: rest, key => if k = key then removeKey rest key else (k, v) :: removeKey rest key

/-- Whether an association list has an entry for a key. -/
def hasKey {α : Type} (l : List (String × α)) (key : String) : Bool :=
  (lookupStr l key).isSome

/-- Does a runtime value satisfy a declared primitive field type?
Models the pydantic per-field check for the field types occurring in
this repository (ints coerce to floats; no other coercions). -/
def checkPrim : PrimType → Value → Bool
  | .pInt, .vInt _ => true
  | .pStr, .vStr _ => true
  | .pFloat, .vFloat _ => true
  | .pFloat, .vInt _ => true
  | .pBool, .vBool _ => true
  | _, _ => false

/-- Violation messages produced when constructing a model from
field/value pairs (the `ValidationError` contents): one message per
missing required field or mistyped field, in declaration order. -/
def validateFields (M : ModelType) (kvs : List (String × Value)) : List String :=
  M.fields.foldr
    (fun ft acc =>
      match lookupStr kvs ft.1 with
      | none => ("Field required: " ++ ft.1) :: acc
      | some v => if checkPrim ft.2 v then acc else ("Invalid type for field " ++ ft.1) :: acc)
    []

/-- Outcome of the accept-or-coerce check the decorator performs against
a declared model type. -/
inductive CoerceOutcome where
  | passed
  | vErrors (errs : List String)
  | otherExn (msg : String)

/-- The accept-or-coerce check of the decorator (lines 100-101 and
118-119 of the source): accept an instance of the declared model;
otherwise construct the model from the value viewed as a dict or from
the object field dictionary. A `ValidationError` carries violation
messages; a plain value has no field dictionary, so reading it raises
an `AttributeError` instead. -/
def coerceCheck (M : ModelType) (v : Value) : CoerceOutcome :=
  match v with
  | .vModel n fields =>
      if n = M.name then .passed
      else match validateFields M fields with
        | [] => .passed
        | errs => .vErrors errs
  | .vDict kvs =>
      match validateFields M kvs with
      | [] => .passed
      | errs => .vErrors errs
  | _ => .otherExn "AttributeError: object has no attribute __dict__"

/-- Render a `ValidationError` as the string interpolated into the
error entry (`str(e)` in the source). -/
def renderErrs (errs : List String) : String :=
  String.intercalate "; " errs

/-- `sig.bind(*args, **kwargs)` followed by `apply_defaults()`: bind
positional then keyword arguments to parameter names, filling defaults,
or raise a `TypeError` with a message. -/
def bindArgs : List Param → List Value → List (String × Value) → Except String (List (String × Value))
  | [], [], [] => .ok []
  | [], _ :: _, _ => .error "too many positional arguments"
  | [], [], (k, _) :: _ => .error ("got an unexpected keyword argument " ++ k)
  | p :: ps, v :: vs, kw =>
      if hasKey kw p.name then .error ("multiple values for argument " ++ p.name)
      else (bindArgs ps vs kw).map (fun r => (p.name, v) :: r)
  | p :: ps, [], kw =>
      match lookupStr kw p.name with
      | some v => (bindArgs ps [] (removeKey kw p.name)).map (fun r => (p.name, v) :: r)
      | none =>
          match p.default with
          | some d => (bindArgs ps [] kw).map (fun r => (p.name, d) :: r)
          | none => .error ("missing a required argument: " ++ p.name)

/-- The per-parameter validation loop (source lines 93-103), threading
the accumulated error list. A `ValidationError` during coercion appends
an entry and continues; any other exception escapes to the outer
handler, which appends an `Input validation error` entry and stops the
loop (source lines 105-106). -/
def validateParams : List (String × Value) → TypeHints → List String → List String
  | [], _, acc => acc
  | (p, v) :: rest, hints, acc =>
      match lookupStr hints p with
      | some (.model M) =>
          match coerceCheck M v with
          | .passed => validateParams rest hints acc
          | .vErrors errs =>
              validateParams rest hints
                (acc ++ ["Input validation failed for " ++ p ++ ": " ++ renderErrs errs])
          | .otherExn msg => acc ++ ["Input validation error: " ++ msg]
      | _ => validateParams rest hints acc

/-- The input-validation phase (source lines 85-106): performed only
when `validate_input` is set and the hint dictionary is non-empty; a
binding failure appends a single `Input validation error` entry. -/
def inputValidation (opts : MonitorOptions) (sig : List Param) (hints : TypeHints)
    (pos : List Value) (kw : List (String × Value)) : List String :=
  if opts.validate_input && !hints.isEmpty then
    match bindArgs sig pos kw with
    | .error msg => ["Input validation error: " ++ msg]
    | .ok bound => validateParams bound hints []
  else []

/-- Status, result and error entries produced by executing the function
and validating its output (source lines 109-130), reached only when no
input error was recorded. An exception from the call, or a
non-`ValidationError` exception from output coercion, is caught by the
outer handler, which records the message and the traceback and clears
the result. -/
def executePhase (opts : MonitorOptions) (hints : TypeHints) (func : PyFunc)
    (pos : List Value) (kw : List (String × Value)) (env : Env) :
    String × Value × List String :=
  match func pos kw with
  | .exn msg => ("error", .vNone, ["Execution error: " ++ msg, "Traceback: " ++ env.tb])
  | .ok v =>
      if opts.validate_output then
        match lookupStr hints "return" with
        | some (.model M) =>
            match coerceCheck M v with
            | .passed => ("success", v, [])
            | .vErrors errs => ("error", v, ["Output validation failed: " ++ renderErrs errs])
            | .otherExn msg =>
                ("error", .vNone, ["Execution error: " ++ msg, "Traceback: " ++ env.tb])
        | _ => ("success", v, [])
      else ("success", v, [])

/-- `model_dump()` of the envelope: the plain mapping of its fields. -/
def modelDump (r : ExecutionResult) : Value :=
  .vDict
    [("result", r.result),
     ("status", .vStr r.status),
     ("errors", match r.errors with
       | none => .vNone
       | some l => .vList (l.map .vStr)),
     ("execution_time", .vFloat r.execution_time),
     ("memory_usage", .vDict
       [("before", .vInt r.memory_usage.before),
        ("after", .vInt r.memory_usage.after),
        ("peak", .vInt r.memory_usage.peak),
        ("delta", .vInt r.memory_usage.delta)]),
     ("cpu_usage", .vFloat r.cpu_usage),
     ("timestamp", .vStr r.timestamp),
     ("function_name", .vStr r.function_name)]

/-- Python `str.upper()` for the ASCII strings used as log levels. -/
def pyUpper (s : String) : String :=
  ⟨s.data.map Char.toUpper⟩

/-- Severity of the success-path record for a configured `log_level`
(source lines 165-169): `DEBUG` when the upper-cased setting is
`"DEBUG"`, otherwise `INFO`. -/
def successLevel (log_level : String) : LogLevel :=
  if pyUpper log_level = "DEBUG" then .debug else .info

/-- One invocation of the decorated function (`wrapper` in the source):
sample start metrics, validate inputs, execute and validate output,
sample end metrics, build the envelope, log, and choose the return
value. -/
def wrapper (opts : MonitorOptions) (sig : List Param) (hints : TypeHints)
    (func : PyFunc) (fname : String) (pos : List Value) (kw : List (String × Value))
    (env : Env) : WrapperTrace :=
  let inputErrors := inputValidation opts sig hints pos kw
  let phase :=
    if inputErrors.isEmpty then executePhase opts hints func pos kw env
    else ("error", .vNone, [])
  let status := phase.1
  let result := phase.2.1
  let errors := inputErrors ++ phase.2.2
  let envelope : ExecutionResult :=
    { result := result
      status := status
      errors := if errors.isEmpty then none else some errors
      execution_time := env.endTime - env.startTime
      memory_usage :=
        { before := env.memBefore
          after := env.memAfter
          peak := env.memAfter
          delta := env.memAfter - env.memBefore }
      cpu_usage := max env.cpuBefore env.cpuAfter
      timestamp := env.timestamp
      function_name := fname }
  let logs :=
    if opts.log_execution then
      if status = "success" then
        [{ level := successLevel opts.log_level,
           message := "Function executed successfully",
           data := modelDump envelope }]
      else
        [{ level := .error,
           message := "Function execution failed",
           data := modelDump envelope }]
    else []
  { envelope := envelope
    logs := logs
    invoked := inputErrors.isEmpty
    output :=
      if opts.return_raw_result && status = "success" then result
      else modelDump envelope }

/-- The decorated function seen as a plain Python callable again, for
wrapping twice: it never raises (the wrapper catches everything), and
returns the chosen output. -/
def wrappedAsFunc (opts : MonitorOptions) (sig : List Param) (hints : TypeHints)
    (func : PyFunc) (fname : String) (env : Env) : PyFunc :=
  fun pos kw => .ok (wrapper opts sig hints func fname pos kw env).output

/-! ### Helper lemmas -/

/-- In the execute-and-validate-output phase, the status is `error`
exactly when it contributed error entries. -/
lemma executePhase_error_iff (opts : MonitorOptions) (hints : TypeHints) (func : PyFunc)
    (pos : List Value) (kw : List (String × Value)) (env : Env) :
    (executePhase opts hints func pos kw env).1 = "error" ↔
      (executePhase opts hints func pos kw env).2.2 ≠ [] := by
  unfold executePhase
  cases hf : func pos kw with
  | exn msg => simp
  | ok v =>
      by_cases hvo : opts.validate_output
      · simp only [hvo, if_true]
        cases hr : lookupStr hints "return" with
        | none => simp
        | some hint =>
            cases hint with
            | plain => simp
            | model M =>
                cases hc : coerceCheck M v with
                | passed => simp [hc]
                | vErrors errs => simp [hc]
                | otherExn msg => simp [hc]
      · simp [hvo]

/-- The execute phase reports either `success` or `error`. -/
lemma executePhase_status (opts : MonitorOptions) (hints : TypeHints) (func : PyFunc)
    (pos : List Value) (kw : List (String × Value)) (env : Env) :
    (executePhase opts hints func pos kw env).1 = "success" ∨
      (executePhase opts hints func pos kw env).1 = "error" := by
  unfold executePhase
  cases hf : func pos kw with
  | exn msg => simp
  | ok v =>
      by_cases hvo : opts.validate_output
      · simp only [hvo, if_true]
        cases hr : lookupStr hints "return" with
        | none => simp
        | some hint =>
            cases hint with
            | plain => simp
            | model M =>
                cases hc : coerceCheck M v with
                | passed => simp [hc]
                | vErrors errs => simp [hc]
                | otherExn msg => simp [hc]
      · simp [hvo]

/-- Envelope status of one invocation is either `success` or `error`. -/
lemma wrapper_status_cases (opts : MonitorOptions) (sig : List Param) (hints : TypeHints)
    (func : PyFunc) (fname : String) (pos : List Value) (kw : List (String × Value))
    (env : Env) :
    (wrapper opts sig hints func fname pos kw env).envelope.status = "success" ∨
      (wrapper opts sig hints func fname pos kw env).envelope.status = "error" := by
  unfold wrapper
  by_cases hie : (inputValidation opts sig hints pos kw).isEmpty
  · simpa [hie] using executePhase_status opts hints func pos kw env
  · simp [hie]

/-- Envelope status is `error` exactly when the envelope carries errors. -/
lemma wrapper_error_iff (opts : MonitorOptions) (sig : List Param) (hints : TypeHints)
    (func : PyFunc) (fname : String) (pos : List Value) (kw : List (String × Value))
    (env : Env) :
    (wrapper opts sig hints func fname pos kw env).envelope.status = "error" ↔
      (wrapper opts sig hints func fname pos kw env).envelope.errors ≠ none := by
  unfold wrapper
  by_cases hie : (inputValidation opts sig hints pos kw).isEmpty
  · rw [List.isEmpty_iff] at hie
    have h := executePhase_error_iff opts hints func pos kw env
    simp only [hie, List.isEmpty_nil, if_true, List.nil_append]
    by_cases hp : (executePhase opts hints func pos kw env).2.2 = []
    · simp [hie, hp, h]
    · simp [hie, hp, h, List.isEmpty_iff]
  · rw [List.isEmpty_iff] at *
    simp [hie, List.isEmpty_iff]

/-- **C1.** For every invocation of a wrapped function, the envelope has
status `"error"` if and only if its errors sequence is non-empty
(status `"success"` if and only if `errors` is absent). -/
theorem c1_status_iff_errors (opts : MonitorOptions) (sig : List Param) (hints : TypeHints)
    (func : PyFunc) (fname : String) (pos : List Value) (kw : List (String × Value))
    (env : Env) :
    ((wrapper opts sig hints func fname pos kw env).envelope.status = "error" ↔
      (wrapper opts sig hints func fname pos kw env).envelope.errors ≠ none) ∧
    ((wrapper opts sig hints func fname pos kw env).envelope.status = "success" ↔
      (wrapper opts sig hints func fname pos kw env).envelope.errors = none) := by
  have herr := wrapper_error_iff opts sig hints func fname pos kw env
  have hcases := wrapper_status_cases opts sig hints func fname pos kw env
  refine ⟨herr, ?_⟩
  constructor
  · intro hs
    by_contra hne
    have : (wrapper opts sig hints func fname pos kw env).envelope.status = "error" :=
      herr.mpr hne
    rw [hs] at this
    simp at this
  · intro hn
    rcases hcases with hs | hs
    · exact hs
    · exact absurd (herr.mp hs) (by simp [hn])

/-! ### Concrete objects used by counterexamples and witnesses -/

/-- A constant function returning the integer `1`; it never raises. -/
def constOne : PyFunc := fun _ _ => .ok (.vInt 1)

/-- A fixed sample environment for concrete invocations. -/
def envA : Env := ⟨0, 1, 100, 90, 0, 5, "ts", "tb"⟩

/-- The options named by the idempotence property: validation and
logging disabled, everything else at its default (`return_raw_result`
defaults to `false` in the source). -/
def noValOpts : MonitorOptions :=
  { validate_input := false, validate_output := false, log_execution := false }

/-- The options of the amended idempotence property: additionally
`return_raw_result := true`. -/
def noValRawOpts : MonitorOptions :=
  { validate_input := false, validate_output := false, log_execution := false,
    return_raw_result := true }

/-- **C2, counterexample.** With exactly the options the claim names
(`validate_input=False, validate_output=False, log_execution=False`,
hence the default `return_raw_result=False`), wrapping twice does not
return the direct result: for the constant function returning `1`, the
double-wrapped call returns the envelope mapping, not `1`. -/
theorem c2_counterexample :
    constOne [] [] = ExecOutcome.ok (.vInt 1) ∧
    (wrapper noValOpts [] [] (wrappedAsFunc noValOpts [] [] constOne "f" envA)
        "f" [] [] envA).output ≠ .vInt 1 :=
  ⟨rfl, fun h => Value.noConfusion h⟩

/-- **C2, amended.** For every function and every argument list on which
it does not raise, wrapping twice with `validate_input=False,
validate_output=False, log_execution=False` *and*
`return_raw_result=True` returns the value of calling the function
directly on those arguments. -/
theorem c2_double_wrap_raw (sig1 sig2 : List Param) (hints1 hints2 : TypeHints)
    (func : PyFunc) (fn1 fn2 : String) (env1 env2 : Env)
    (pos : List Value) (kw : List (String × Value)) (v : Value)
    (h : func pos kw = .ok v) :
    (wrapper noValRawOpts sig2 hints2
        (wrappedAsFunc noValRawOpts sig1 hints1 func fn1 env1)
        fn2 pos kw env2).output = v := by
  simp [wrapper, wrappedAsFunc, inputValidation, executePhase, noValRawOpts, h]

/-- Witness for C2 (amended) at the constant function returning `1`. -/
theorem c2_double_wrap_raw_witness :
    constOne [] [] = ExecOutcome.ok (.vInt 1) ∧
    (wrapper noValRawOpts [] [] (wrappedAsFunc noValRawOpts [] [] constOne "f" envA)
        "f" [] [] envA).output = .vInt 1 :=
  ⟨rfl, c2_double_wrap_raw [] [] [] [] constOne "f" "f" envA envA [] [] (.vInt 1) rfl⟩

/-! ### Lemmas about the parameter-validation loop -/

/-- Unfolding equation of the loop for a non-empty argument list. -/
lemma validateParams_cons (p : String) (v : Value) (rest : List (String × Value))
    (hints : TypeHints) (acc : List String) :
    validateParams ((p, v) :: rest) hints acc =
      match lookupStr hints p with
      | some (.model M) =>
          match coerceCheck M v with
          | .passed => validateParams rest hints acc
          | .vErrors errs =>
              validateParams rest hints
                (acc ++ ["Input validation failed for " ++ p ++ ": " ++ renderErrs errs])
          | .otherExn msg => acc ++ ["Input validation error: " ++ msg]
      | _ => validateParams rest hints acc := rfl

/-- Entries already accumulated are never dropped by the loop. -/
lemma validateParams_mem_acc (e : String) :
    ∀ (l : List (String × Value)) (hints : TypeHints) (acc : List String),
      e ∈ acc → e ∈ validateParams l hints acc := by
  intro l
  induction l with
  | nil => intro hints acc h; simpa [validateParams] using h
  | cons pv rest ih =>
      intro hints acc h
      obtain ⟨p, v⟩ := pv
      rw [validateParams_cons]
      cases hl : lookupStr hints p with
      | none => exact ih hints acc h
      | some hint =>
          cases hint with
          | plain => exact ih hints acc h
          | model M =>
              show e ∈ (match coerceCheck M v with
                | CoerceOutcome.passed => validateParams rest hints acc
                | CoerceOutcome.vErrors errs =>
                    validateParams rest hints
                      (acc ++ ["Input validation failed for " ++ p ++ ": " ++ renderErrs errs])
                | CoerceOutcome.otherExn msg => acc ++ ["Input validation error: " ++ msg])
              cases hc : coerceCheck M v with
              | passed => exact ih hints acc h
              | vErrors errs => exact ih hints _ (List.mem_append_left _ h)
              | otherExn msg => exact List.mem_append_left _ h

/-- No argument of the list makes the accept-or-coerce check raise a
non-`ValidationError` exception (which would abort the loop). -/
def noAbort (hints : TypeHints) (l : List (String × Value)) : Prop :=
  ∀ q w, (q, w) ∈ l → ∀ N, lookupStr hints q = some (.model N) →
    ∀ m, coerceCheck N w ≠ .otherExn m

/-- If no earlier argument aborts the loop, the loop reaches the tail,
with some accumulator extending the current one. -/
lemma validateParams_reach (hints : TypeHints) :
    ∀ (pre tail : List (String × Value)) (acc : List String), noAbort hints pre →
      ∃ acc2, validateParams (pre ++ tail) hints acc = validateParams tail hints acc2 := by
  intro pre
  induction pre with
  | nil => intro tail acc _; exact ⟨acc, rfl⟩
  | cons qw pre ih =>
      intro tail acc hab
      obtain ⟨q, w⟩ := qw
      have hab' : noAbort hints pre := by
        intro q' w' hm N hN m
        exact hab q' w' (List.mem_cons_of_mem _ hm) N hN m
      rw [List.cons_append, validateParams_cons]
      cases hl : lookupStr hints q with
      | none => exact ih tail acc hab'
      | some hint =>
          cases hint with
          | plain => exact ih tail acc hab'
          | model N =>
              show ∃ acc2, (match coerceCheck N w with
                | CoerceOutcome.passed => validateParams (pre ++ tail) hints acc
                | CoerceOutcome.vErrors errs =>
                    validateParams (pre ++ tail) hints
                      (acc ++ ["Input validation failed for " ++ q ++ ": " ++ renderErrs errs])
                | CoerceOutcome.otherExn msg => acc ++ ["Input validation error: " ++ msg]) =
                validateParams tail hints acc2
              cases hc : coerceCheck N w with
              | passed => exact ih tail acc hab'
              | vErrors errs => exact ih tail _ hab'
              | otherExn m =>
                  exact absurd hc (hab q w (List.mem_cons_self _ _) N hl m)

/-- A hint table in which some name is found is non-empty. -/
lemma lookupStr_ne_nil {α : Type} {hints : List (String × α)} {p : String} {x : α}
    (h : lookupStr hints p = some x) : hints.isEmpty = false := by
  cases hints with
  | nil => simp [lookupStr] at h
  | cons _ _ => rfl

/-- **C3, amended.** With `validate_input` enabled, if binding succeeds
and some bound argument with a declared structured-record type fails
the accept-or-coerce check with a validation error — provided no
argument bound before it is a plain value that aborts validation with
an `AttributeError` instead — then the invocation has status `"error"`,
its errors contain an entry prefixed `"Input validation failed for
<param>:"`, and the underlying function is not invoked. -/
theorem c3_input_validation_failed (opts : MonitorOptions) (sig : List Param)
    (hints : TypeHints) (func : PyFunc) (fname : String) (pos : List Value)
    (kw : List (String × Value)) (env : Env)
    (pre post : List (String × Value)) (p : String) (v : Value) (M : ModelType)
    (errs : List String)
    (hvi : opts.validate_input = true)
    (hbind : bindArgs sig pos kw = .ok (pre ++ (p, v) :: post))
    (hpre : noAbort hints pre)
    (hhint : lookupStr hints p = some (.model M))
    (hfail : coerceCheck M v = .vErrors errs) :
    (wrapper opts sig hints func fname pos kw env).invoked = false ∧
    (wrapper opts sig hints func fname pos kw env).envelope.status = "error" ∧
    ∃ l, (wrapper opts sig hints func fname pos kw env).envelope.errors = some l ∧
      ∃ e ∈ l, ∃ rest, e = "Input validation failed for " ++ p ++ ": " ++ rest := by
  have hne : hints.isEmpty = false := lookupStr_ne_nil hhint
  have hie : inputValidation opts sig hints pos kw =
      validateParams (pre ++ (p, v) :: post) hints [] := by
    simp [inputValidation, hvi, hne, hbind]
  obtain ⟨acc2, hreach⟩ := validateParams_reach hints pre ((p, v) :: post) [] hpre
  have hstep : validateParams ((p, v) :: post) hints acc2 =
      validateParams post hints
        (acc2 ++ ["Input validation failed for " ++ p ++ ": " ++ renderErrs errs]) := by
    rw [validateParams_cons]
    simp only [hhint, hfail]
  have hmem : ("Input validation failed for " ++ p ++ ": " ++ renderErrs errs) ∈
      inputValidation opts sig hints pos kw := by
    rw [hie, hreach, hstep]
    exact validateParams_mem_acc _ post hints _ (by simp)
  have hienil : (inputValidation opts sig hints pos kw).isEmpty = false := by
    cases hi : inputValidation opts sig hints pos kw with
    | nil => rw [hi] at hmem; simp at hmem
    | cons a l => rfl
  refine ⟨?_, ?_, ?_⟩
  · simp [wrapper, hienil]
  · simp [wrapper, hienil]
  · refine ⟨inputValidation opts sig hints pos kw, ?_, ?_⟩
    · have : (inputValidation opts sig hints pos kw) ≠ [] := by
        intro h0; rw [h0] at hienil; simp at hienil
      simp [wrapper, hienil, this]
    · exact ⟨_, hmem, renderErrs errs, rfl⟩

/-- The string of which another is stated to be a prefix is reached by
appending: prefix check on the character lists. -/
lemma strPre_of_eq_append {s t rest : String} (h : s = t ++ rest) :
    t.data.isPrefixOf s.data = true := by
  subst h
  rw [String.data_append, List.isPrefixOf_iff_prefix]
  exact List.prefix_append _ _

/-- The example input model of the repository (`UserInput` in `main.py`). -/
def UserInput : ModelType :=
  ⟨"UserInput", [("name", .pStr), ("age", .pInt), ("email", .pStr)]⟩

/-- Signature of `create_user`. -/
def sigUser : List Param := [⟨"user_data", none⟩]

/-- Type hints of `create_user`, restricted to its parameter. -/
def hintsUser : TypeHints := [("user_data", .model UserInput)]

/-- The invalid user dict of `main.py`: `age` is the string `"thirty"`. -/
def badUser : Value :=
  .vDict [("name", .vStr "John"), ("age", .vStr "thirty"), ("email", .vStr "invalid")]

/-- Witness for C3 (amended): the invalid-user call of `main.py`. -/
theorem c3_input_validation_failed_witness :
    ({} : MonitorOptions).validate_input = true ∧
    bindArgs sigUser [badUser] [] = .ok [("user_data", badUser)] ∧
    lookupStr hintsUser "user_data" = some (.model UserInput) ∧
    coerceCheck UserInput badUser = .vErrors ["Invalid type for field age"] ∧
    ((wrapper {} sigUser hintsUser constOne "create_user" [badUser] [] envA).invoked = false ∧
     (wrapper {} sigUser hintsUser constOne "create_user" [badUser] [] envA).envelope.status =
       "error" ∧
     ∃ l, (wrapper {} sigUser hintsUser constOne "create_user" [badUser] [] envA).envelope.errors =
         some l ∧
       ∃ e ∈ l, ∃ rest, e = "Input validation failed for " ++ "user_data" ++ ": " ++ rest) :=
  ⟨rfl, rfl, rfl, rfl,
    c3_input_validation_failed {} sigUser hintsUser constOne "create_user" [badUser] [] envA
      [] [] "user_data" badUser UserInput ["Invalid type for field age"] rfl rfl
      (fun _ _ hm => absurd hm (List.not_mem_nil _)) rfl rfl⟩

/-- Two single-field models and a two-parameter signature declaring them. -/
def MA : ModelType := ⟨"MA", [("x", .pInt)]⟩

/-- Second single-field model. -/
def MB : ModelType := ⟨"MB", [("y", .pInt)]⟩

/-- Signature with two parameters `a`, `b`. -/
def sigAB : List Param := [⟨"a", none⟩, ⟨"b", none⟩]

/-- Hints declaring both parameters as structured-record models. -/
def hintsAB : TypeHints := [("a", .model MA), ("b", .model MB)]

/-- **C3, counterexample.** The claim as stated fails: with
`validate_input` enabled, parameter `b` is declared with model `MB` and
its argument — the mapping `{}` — is missing the required field `y`,
yet the errors of the invocation contain no entry prefixed
`"Input validation failed for b:"`.  Parameter `a` is bound to the
plain integer `5`, whose failed coercion raises an `AttributeError`
that aborts the validation loop with a single
`"Input validation error:"` entry before `b` is examined. -/
theorem c3_counterexample :
    ({} : MonitorOptions).validate_input = true ∧
    lookupStr hintsAB "b" = some (.model MB) ∧
    bindArgs sigAB [.vInt 5, .vDict []] [] = .ok [("a", .vInt 5), ("b", .vDict [])] ∧
    coerceCheck MB (.vDict []) = .vErrors ["Field required: y"] ∧
    (wrapper {} sigAB hintsAB constOne "f" [.vInt 5, .vDict []] [] envA).envelope.errors =
      some ["Input validation error: AttributeError: object has no attribute __dict__"] ∧
    ¬ ∃ e ∈ ["Input validation error: AttributeError: object has no attribute __dict__"],
        ∃ rest, e = "Input validation failed for " ++ "b" ++ ": " ++ rest := by
  refine ⟨rfl, rfl, rfl, rfl, rfl, ?_⟩
  rintro ⟨e, he, rest, hr⟩
  rw [List.mem_singleton] at he
  subst he
  have hp := strPre_of_eq_append (t := "Input validation failed for " ++ "b" ++ ": ") hr
  revert hp
  decide

/-! ### C4: exceptions of the underlying function -/

/-- **C4.** If input validation records nothing and the underlying
function raises, the envelope has status `"error"`, its errors are the
`"Execution error:"` entry followed by the stack-trace entry, and the
result field is absent (`None`). -/
theorem c4_execution_error (opts : MonitorOptions) (sig : List Param) (hints : TypeHints)
    (func : PyFunc) (fname : String) (pos : List Value) (kw : List (String × Value))
    (env : Env) (m : String)
    (hie : inputValidation opts sig hints pos kw = [])
    (hexn : func pos kw = .exn m) :
    (wrapper opts sig hints func fname pos kw env).envelope.status = "error" ∧
    (wrapper opts sig hints func fname pos kw env).envelope.result = .vNone ∧
    (wrapper opts sig hints func fname pos kw env).envelope.errors =
      some ["Execution error: " ++ m, "Traceback: " ++ env.tb] := by
  refine ⟨?_, ?_, ?_⟩ <;> simp [wrapper, executePhase, hie, hexn]

/-- The `divide_numbers` example called with a zero divisor: the
underlying function raises. -/
def divRaise : PyFunc := fun _ _ => .exn "Division by zero is not allowed"

/-- Signature of `divide_numbers`. -/
def sigDiv : List Param := [⟨"a", none⟩, ⟨"b", none⟩]

/-- Type hints of `divide_numbers`: plain floats, no model shapes. -/
def hintsDiv : TypeHints := [("a", .plain), ("b", .plain), ("return", .plain)]

/-- Witness for C4: `divide_numbers(10, 0)` from `main.py`. -/
theorem c4_execution_error_witness :
    inputValidation {} sigDiv hintsDiv [.vFloat 10, .vFloat 0] [] = [] ∧
    divRaise [.vFloat 10, .vFloat 0] [] = .exn "Division by zero is not allowed" ∧
    ((wrapper {} sigDiv hintsDiv divRaise "divide_numbers" [.vFloat 10, .vFloat 0] []
        envA).envelope.status = "error" ∧
     (wrapper {} sigDiv hintsDiv divRaise "divide_numbers" [.vFloat 10, .vFloat 0] []
        envA).envelope.result = .vNone ∧
     (wrapper {} sigDiv hintsDiv divRaise "divide_numbers" [.vFloat 10, .vFloat 0] []
        envA).envelope.errors =
       some ["Execution error: " ++ "Division by zero is not allowed",
             "Traceback: " ++ envA.tb]) :=
  ⟨rfl, rfl,
    c4_execution_error {} sigDiv hintsDiv divRaise "divide_numbers" [.vFloat 10, .vFloat 0]
      [] envA "Division by zero is not allowed" rfl rfl⟩

/-! ### C5: output validation keeps the computed result -/

/-- **C5.** If execution succeeds, `validate_output` is enabled, the
declared return shape is a structured-record model, and the returned
value fails the accept-or-coerce check with a validation error, the
envelope records the `"Output validation failed:"` entry with status
`"error"` while its result field still holds the computed value. -/
theorem c5_output_validation_preserves_result (opts : MonitorOptions) (sig : List Param)
    (hints : TypeHints) (func : PyFunc) (fname : String) (pos : List Value)
    (kw : List (String × Value)) (env : Env) (v : Value) (M : ModelType)
    (errs : List String)
    (hie : inputValidation opts sig hints pos kw = [])
    (hok : func pos kw = .ok v)
    (hvo : opts.validate_output = true)
    (hret : lookupStr hints "return" = some (.model M))
    (hfail : coerceCheck M v = .vErrors errs) :
    (wrapper opts sig hints func fname pos kw env).envelope.status = "error" ∧
    (wrapper opts sig hints func fname pos kw env).envelope.errors =
      some ["Output validation failed: " ++ renderErrs errs] ∧
    (wrapper opts sig hints func fname pos kw env).envelope.result = v := by
  refine ⟨?_, ?_, ?_⟩ <;> simp [wrapper, executePhase, hie, hok, hvo, hret, hfail]

/-- A function returning the empty dict. -/
def retEmptyDict : PyFunc := fun _ _ => .ok (.vDict [])

/-- Hints declaring only a structured return shape. -/
def hintsRet : TypeHints := [("return", .model MB)]

/-- Witness for C5: a function declared to return `MB` that returns an
empty dict missing the required field `y`. -/
theorem c5_output_validation_preserves_result_witness :
    inputValidation {} [] hintsRet [] [] = [] ∧
    retEmptyDict [] [] = .ok (.vDict []) ∧
    ({} : MonitorOptions).validate_output = true ∧
    lookupStr hintsRet "return" = some (.model MB) ∧
    coerceCheck MB (.vDict []) = .vErrors ["Field required: y"] ∧
    ((wrapper {} [] hintsRet retEmptyDict "f" [] [] envA).envelope.status = "error" ∧
     (wrapper {} [] hintsRet retEmptyDict "f" [] [] envA).envelope.errors =
       some ["Output validation failed: " ++ renderErrs ["Field required: y"]] ∧
     (wrapper {} [] hintsRet retEmptyDict "f" [] [] envA).envelope.result = .vDict []) :=
  ⟨rfl, rfl, rfl, rfl, rfl,
    c5_output_validation_preserves_result {} [] hintsRet retEmptyDict "f" [] [] envA
      (.vDict []) MB ["Field required: y"] rfl rfl rfl rfl rfl⟩

/-! ### C6: return format -/

/-- **C6.** The caller receives the bare return value exactly when
`return_raw_result` is set and the status is `"success"`; in every
other case the caller receives the envelope as the plain mapping of its
fields. -/
theorem c6_return_format (opts : MonitorOptions) (sig : List Param) (hints : TypeHints)
    (func : PyFunc) (fname : String) (pos : List Value) (kw : List (String × Value))
    (env : Env) :
    (wrapper opts sig hints func fname pos kw env).output =
      if opts.return_raw_result = true ∧
          (wrapper opts sig hints func fname pos kw env).envelope.status = "success" then
        (wrapper opts sig hints func fname pos kw env).envelope.result
      else modelDump (wrapper opts sig hints func fname pos kw env).envelope := by
  have h : (wrapper opts sig hints func fname pos kw env).output =
      if opts.return_raw_result &&
          ((wrapper opts sig hints func fname pos kw env).envelope.status = "success" : Bool) then
        (wrapper opts sig hints func fname pos kw env).envelope.result
      else modelDump (wrapper opts sig hints func fname pos kw env).envelope := rfl
  rw [h]
  by_cases hc : opts.return_raw_result = true ∧
      (wrapper opts sig hints func fname pos kw env).envelope.status = "success"
  · simp [hc.1, hc.2]
  · rw [if_neg hc, if_neg ?_]
    simp only [Bool.and_eq_true, decide_eq_true_eq]
    exact hc

/-! ### C7: structured logging -/

/-- Unfolding equation for the records the wrapper emits. -/
lemma wrapper_logs (opts : MonitorOptions) (sig : List Param) (hints : TypeHints)
    (func : PyFunc) (fname : String) (pos : List Value) (kw : List (String × Value))
    (env : Env) :
    (wrapper opts sig hints func fname pos kw env).logs =
      if opts.log_execution then
        if (wrapper opts sig hints func fname pos kw env).envelope.status = "success" then
          [{ level := successLevel opts.log_level,
             message := "Function executed successfully",
             data := modelDump (wrapper opts sig hints func fname pos kw env).envelope }]
        else
          [{ level := .error,
             message := "Function execution failed",
             data := modelDump (wrapper opts sig hints func fname pos kw env).envelope }]
      else [] := rfl

/-- **C7.** With `log_execution` enabled, exactly one structured record
is emitted per call; it has `ERROR` severity whenever the status is
`"error"`, regardless of the configured `log_level`, and on success it
is emitted at the configured level: `DEBUG` for the setting `"DEBUG"`,
`INFO` for the setting `"INFO"`. -/
theorem c7_logging (opts : MonitorOptions) (sig : List Param) (hints : TypeHints)
    (func : PyFunc) (fname : String) (pos : List Value) (kw : List (String × Value))
    (env : Env)
    (hlog : opts.log_execution = true) :
    (wrapper opts sig hints func fname pos kw env).logs.length = 1 ∧
    ((wrapper opts sig hints func fname pos kw env).envelope.status = "error" →
      (wrapper opts sig hints func fname pos kw env).logs.map LogRecord.level =
        [LogLevel.error]) ∧
    ((wrapper opts sig hints func fname pos kw env).envelope.status = "success" →
      opts.log_level = "DEBUG" →
      (wrapper opts sig hints func fname pos kw env).logs.map LogRecord.level =
        [LogLevel.debug]) ∧
    ((wrapper opts sig hints func fname pos kw env).envelope.status = "success" →
      opts.log_level = "INFO" →
      (wrapper opts sig hints func fname pos kw env).logs.map LogRecord.level =
        [LogLevel.info]) := by
  rw [wrapper_logs, hlog, if_pos rfl]
  by_cases hs : (wrapper opts sig hints func fname pos kw env).envelope.status = "success"
  · rw [if_pos hs]
    refine ⟨rfl, ?_, ?_, ?_⟩
    · intro herr
      rw [hs] at herr
      simp at herr
    · intro _ hll
      rw [hll]
      rfl
    · intro _ hll
      rw [hll]
      rfl
  · rw [if_neg hs]
    exact ⟨rfl, fun _ => rfl, fun h _ => absurd h hs, fun h _ => absurd h hs⟩

/-- Witness for C7: the raising `divide_numbers` call with default
options (`log_execution` true, `log_level` `"INFO"`). -/
theorem c7_logging_witness :
    ({} : MonitorOptions).log_execution = true ∧
    ((wrapper {} sigDiv hintsDiv divRaise "divide_numbers" [.vFloat 10, .vFloat 0] []
        envA).logs.length = 1 ∧
     ((wrapper {} sigDiv hintsDiv divRaise "divide_numbers" [.vFloat 10, .vFloat 0] []
        envA).envelope.status = "error" →
       (wrapper {} sigDiv hintsDiv divRaise "divide_numbers" [.vFloat 10, .vFloat 0] []
          envA).logs.map LogRecord.level = [LogLevel.error]) ∧
     ((wrapper {} sigDiv hintsDiv divRaise "divide_numbers" [.vFloat 10, .vFloat 0] []
        envA).envelope.status = "success" →
       ({} : MonitorOptions).log_level = "DEBUG" →
       (wrapper {} sigDiv hintsDiv divRaise "divide_numbers" [.vFloat 10, .vFloat 0] []
          envA).logs.map LogRecord.level = [LogLevel.debug]) ∧
     ((wrapper {} sigDiv hintsDiv divRaise "divide_numbers" [.vFloat 10, .vFloat 0] []
        envA).envelope.status = "success" →
       ({} : MonitorOptions).log_level = "INFO" →
       (wrapper {} sigDiv hintsDiv divRaise "divide_numbers" [.vFloat 10, .vFloat 0] []
          envA).logs.map LogRecord.level = [LogLevel.info])) :=
  ⟨rfl, c7_logging {} sigDiv hintsDiv divRaise "divide_numbers" [.vFloat 10, .vFloat 0]
    [] envA rfl⟩

/-! ### C8: timing and memory figures -/

/-- **C8.** Provided the clock does not step backwards between the two
samples (the collaborator contract of the spec), the envelope satisfies
`execution_time >= 0`; it always equals the elapsed time, and
`memory_usage.delta = after - before` with `peak = after`. -/
theorem c8_metrics (opts : MonitorOptions) (sig : List Param) (hints : TypeHints)
    (func : PyFunc) (fname : String) (pos : List Value) (kw : List (String × Value))
    (env : Env)
    (h : env.startTime ≤ env.endTime) :
    0 ≤ (wrapper opts sig hints func fname pos kw env).envelope.execution_time ∧
    (wrapper opts sig hints func fname pos kw env).envelope.execution_time =
      env.endTime - env.startTime ∧
    (wrapper opts sig hints func fname pos kw env).envelope.memory_usage.delta =
      (wrapper opts sig hints func fname pos kw env).envelope.memory_usage.after -
        (wrapper opts sig hints func fname pos kw env).envelope.memory_usage.before ∧
    (wrapper opts sig hints func fname pos kw env).envelope.memory_usage.peak =
      (wrapper opts sig hints func fname pos kw env).envelope.memory_usage.after :=
  ⟨sub_nonneg.mpr h, rfl, rfl, rfl⟩

/-- Witness for C8 at the sample environment. -/
theorem c8_metrics_witness :
    envA.startTime ≤ envA.endTime ∧
    (0 ≤ (wrapper {} sigDiv hintsDiv divRaise "d" [.vFloat 10, .vFloat 0] []
        envA).envelope.execution_time ∧
     (wrapper {} sigDiv hintsDiv divRaise "d" [.vFloat 10, .vFloat 0] []
        envA).envelope.execution_time = envA.endTime - envA.startTime ∧
     (wrapper {} sigDiv hintsDiv divRaise "d" [.vFloat 10, .vFloat 0] []
        envA).envelope.memory_usage.delta =
       (wrapper {} sigDiv hintsDiv divRaise "d" [.vFloat 10, .vFloat 0] []
          envA).envelope.memory_usage.after -
         (wrapper {} sigDiv hintsDiv divRaise "d" [.vFloat 10, .vFloat 0] []
            envA).envelope.memory_usage.before ∧
     (wrapper {} sigDiv hintsDiv divRaise "d" [.vFloat 10, .vFloat 0] []
        envA).envelope.memory_usage.peak =
       (wrapper {} sigDiv hintsDiv divRaise "d" [.vFloat 10, .vFloat 0] []
          envA).envelope.memory_usage.after) :=
  ⟨zero_le_one,
    c8_metrics {} sigDiv hintsDiv divRaise "d" [.vFloat 10, .vFloat 0] [] envA zero_le_one⟩

/-! ### C9: non-model parameter types are skipped -/

/-- **C9.** A bound argument whose declared type is not a
structured-record model contributes nothing to input validation: the
validation loop treats it exactly as a skip, attempting no coercion and
recording no error, for any accumulated state. -/
theorem c9_nonmodel_passthrough (p : String) (v : Value) (rest : List (String × Value))
    (hints : TypeHints) (acc : List String)
    (h : ∀ M, lookupStr hints p ≠ some (.model M)) :
    validateParams ((p, v) :: rest) hints acc = validateParams rest hints acc := by
  rw [validateParams_cons]
  cases hl : lookupStr hints p with
  | none => rfl
  | some hint =>
      cases hint with
      | plain => rfl
      | model M => exact absurd hl (h M)

/-- Witness for C9: the float parameter `a` of `divide_numbers`. -/
theorem c9_nonmodel_passthrough_witness :
    (∀ M, lookupStr hintsDiv "a" ≠ some (.model M)) ∧
    validateParams [("a", .vFloat 10)] hintsDiv [] = validateParams [] hintsDiv [] := by
  have hne : ∀ M, lookupStr hintsDiv "a" ≠ some (.model M) := by
    intro M hcontra
    rw [show lookupStr hintsDiv "a" = some Hint.plain from rfl] at hcontra
    exact Hint.noConfusion (Option.some.inj hcontra)
  exact ⟨hne, c9_nonmodel_passthrough "a" (.vFloat 10) [] hintsDiv [] hne⟩

/-! ### C10: functions without type hints -/

/-- **C10.** For a wrapped function declaring no type hints at all,
enabling input validation performs no validation: no input-validation
error is ever recorded and the underlying function is always invoked,
whatever the arguments. -/
theorem c10_no_hints_no_validation (opts : MonitorOptions) (sig : List Param)
    (func : PyFunc) (fname : String) (pos : List Value) (kw : List (String × Value))
    (env : Env) :
    inputValidation opts sig [] pos kw = [] ∧
    (wrapper opts sig [] func fname pos kw env).invoked = true := by
  constructor
  · simp [inputValidation]
  · simp [wrapper, inputValidation]

end CommonDecorator
